import Mathlib

/-!
# Verification of the shooter-game camera / frame / uuid core

Shallow embedding of `src/common/camera.rs`, the per-frame driver in
`src/app.rs`, and the identifier generator in `src/uuid.rs`.  `f32`
values are modelled as real numbers (exact arithmetic); fallible paths
(`unimplemented!()` panics) are modelled with `Except`; the process-wide
`OnceCell` of `uuid.rs` is modelled by explicit state passing.
-/

noncomputable section

/-- A 2-component vector, modelling `cgmath::Vector2<f32>`. -/
structure Vec2 where
  x : ℝ
  y : ℝ

/-- A 3-component vector, modelling `cgmath::Vector3<f32>` and
`cgmath::Point3<f32>` (both are plain triples of scalars). -/
structure Vec3 where
  x : ℝ
  y : ℝ
  z : ℝ

/-- Componentwise addition (`cgmath` vector / point-plus-vector addition). -/
def Vec3.add (a b : Vec3) : Vec3 := ⟨a.x + b.x, a.y + b.y, a.z + b.z⟩

/-- Componentwise subtraction. -/
def Vec3.sub (a b : Vec3) : Vec3 := ⟨a.x - b.x, a.y - b.y, a.z - b.z⟩

/-- Scalar multiplication `s * v`. -/
def Vec3.smul (s : ℝ) (v : Vec3) : Vec3 := ⟨s * v.x, s * v.y, s * v.z⟩

/-- Dot product, modelling `cgmath::InnerSpace::dot`. -/
def Vec3.dot (a b : Vec3) : ℝ := a.x * b.x + a.y * b.y + a.z * b.z

/-- Cross product, modelling `cgmath::Vector3::cross`. -/
def Vec3.cross (a b : Vec3) : Vec3 :=
  ⟨a.y * b.z - a.z * b.y, a.z * b.x - a.x * b.z, a.x * b.y - a.y * b.x⟩

/-- Euclidean magnitude, modelling `cgmath::InnerSpace::magnitude`. -/
def Vec3.norm (v : Vec3) : ℝ := Real.sqrt (v.x ^ 2 + v.y ^ 2 + v.z ^ 2)

/-- Normalization, modelling `cgmath::InnerSpace::normalize`
(`self * (1 / magnitude)`). -/
def Vec3.normalize (v : Vec3) : Vec3 := Vec3.smul (1 / v.norm) v

/-- The world-up vector `cgmath::Vector3::unit_y()`. -/
def unit_y : Vec3 := ⟨0, 1, 0⟩

/-- A 4x4 matrix in row-major mathematical convention, modelling
`cgmath::Matrix4<f32>` (`mIJ` is row `I`, column `J`). -/
structure Mat4 where
  m00 : ℝ
  m01 : ℝ
  m02 : ℝ
  m03 : ℝ
  m10 : ℝ
  m11 : ℝ
  m12 : ℝ
  m13 : ℝ
  m20 : ℝ
  m21 : ℝ
  m22 : ℝ
  m23 : ℝ
  m30 : ℝ
  m31 : ℝ
  m32 : ℝ
  m33 : ℝ

/-- Matrix product, modelling `Mul` for `cgmath::Matrix4`. -/
def Mat4.mul (a b : Mat4) : Mat4 :=
  ⟨a.m00 * b.m00 + a.m01 * b.m10 + a.m02 * b.m20 + a.m03 * b.m30,
   a.m00 * b.m01 + a.m01 * b.m11 + a.m02 * b.m21 + a.m03 * b.m31,
   a.m00 * b.m02 + a.m01 * b.m12 + a.m02 * b.m22 + a.m03 * b.m32,
   a.m00 * b.m03 + a.m01 * b.m13 + a.m02 * b.m23 + a.m03 * b.m33,
   a.m10 * b.m00 + a.m11 * b.m10 + a.m12 * b.m20 + a.m13 * b.m30,
   a.m10 * b.m01 + a.m11 * b.m11 + a.m12 * b.m21 + a.m13 * b.m31,
   a.m10 * b.m02 + a.m11 * b.m12 + a.m12 * b.m22 + a.m13 * b.m32,
   a.m10 * b.m03 + a.m11 * b.m13 + a.m12 * b.m23 + a.m13 * b.m33,
   a.m20 * b.m00 + a.m21 * b.m10 + a.m22 * b.m20 + a.m23 * b.m30,
   a.m20 * b.m01 + a.m21 * b.m11 + a.m22 * b.m21 + a.m23 * b.m31,
   a.m20 * b.m02 + a.m21 * b.m12 + a.m22 * b.m22 + a.m23 * b.m32,
   a.m20 * b.m03 + a.m21 * b.m13 + a.m22 * b.m23 + a.m23 * b.m33,
   a.m30 * b.m00 + a.m31 * b.m10 + a.m32 * b.m20 + a.m33 * b.m30,
   a.m30 * b.m01 + a.m31 * b.m11 + a.m32 * b.m21 + a.m33 * b.m31,
   a.m30 * b.m02 + a.m31 * b.m12 + a.m32 * b.m22 + a.m33 * b.m32,
   a.m30 * b.m03 + a.m31 * b.m13 + a.m32 * b.m23 + a.m33 * b.m33⟩

/-- Truncation toward zero, modelling Rust `f32::trunc`. -/
def rustTrunc (x : ℝ) : ℝ := if 0 ≤ x then ((⌊x⌋ : ℤ) : ℝ) else ((⌈x⌉ : ℤ) : ℝ)

/-- The Rust floating-point remainder operator `%`
(`a - b * (a / b).trunc()`, sign of the dividend). -/
def rustRem (a b : ℝ) : ℝ := a - b * rustTrunc (a / b)

/-- Rust `f32::clamp(min, max)`:
`if self < min { min } else if self > max { max } else { self }`. -/
def rclamp (x lo hi : ℝ) : ℝ := if x < lo then lo else if hi < x then hi else x

/-- Rust `f32::atan2` (`self = y`, argument `= x`): the angle of the point
`(x, y)`, in `(-pi, pi]`. -/
def atan2 (y x : ℝ) : ℝ :=
  if 0 < x then Real.arctan (y / x)
  else if x < 0 then
    (if 0 ≤ y then Real.arctan (y / x) + Real.pi else Real.arctan (y / x) - Real.pi)
  else if 0 < y then Real.pi / 2
  else if y < 0 then -(Real.pi / 2)
  else 0

/-- Key codes used by this core (subset of `winit::keyboard::KeyCode`). -/
inductive KeyCode where
  | keyW
  | keyS
  | keyA
  | keyD
  | escape
deriving DecidableEq

/-- Modelled from the spec: the input module (`src/input.rs`) is not among
the sources, only its callers are.  Per spec section 3, `InputState` carries
held-key state and an accumulated pointer delta.  `device_offset` is the
pointer-motion delta that `Input::device_offset` yields for the frame,
`key_down` is the held-key query used by the camera, and `key_pressed` is
the edge-triggered query the app loop reads for Escape (it only requests
event-loop exit via a flag and does not change the frame in progress). -/
structure Input where
  device_offset : Vec2
  key_down : KeyCode → Bool
  key_pressed : KeyCode → Bool

/-- Camera mode, modelling `ViewMode` in `src/common/camera.rs`. -/
inductive ViewMode where
  | fps
  | orbit
deriving DecidableEq

/-- The error signalled by `unimplemented!()` in the Rust source. -/
inductive CamError where
  | unimplemented
deriving DecidableEq

/-- The camera state, modelling `struct Camera` in `src/common/camera.rs`. -/
structure Camera where
  position : Vec3
  forward_direction : Vec3
  up_direction : Vec3
  target : Vec3
  projection : Mat4
  view : Mat4
  view_projection : Mat4
  view_mode : ViewMode
  yaw : ℝ
  pitch : ℝ

/-- `Camera::create_perspective_matrix`: `cgmath::perspective` with
`fovy = pi/2`, the given aspect, `near = 0.01`, `far = 100.0`.
`f = cot(fovy / 2)`; layout per `From<PerspectiveFov> for Matrix4`. -/
def createPerspectiveMatrix (aspect : ℝ) : Mat4 :=
  let f := 1 / Real.tan (Real.pi / 2 / 2)
  ⟨f / aspect, 0, 0, 0,
   0, f, 0, 0,
   0, 0, (100 + 1 / 100) / (1 / 100 - 100), 2 * 100 * (1 / 100) / (1 / 100 - 100),
   0, 0, -1, 0⟩

/-- `cgmath::Matrix4::look_at_rh` (via `look_to_rh`): rows are the right,
up and negated forward axes with the eye-translation column. -/
def lookAtRh (eye center up : Vec3) : Mat4 :=
  let f := Vec3.normalize (Vec3.sub center eye)
  let s := Vec3.normalize (Vec3.cross f up)
  let u := Vec3.cross s f
  ⟨s.x, s.y, s.z, -(Vec3.dot eye s),
   u.x, u.y, u.z, -(Vec3.dot eye u),
   -f.x, -f.y, -f.z, Vec3.dot eye f,
   0, 0, 0, 1⟩

/-- `Camera::create_view_matrix`:
`Matrix4::look_at_rh(position, position + forward_direction, (0,1,0))`. -/
def createViewMatrix (position forward_direction : Vec3) : Mat4 :=
  lookAtRh position (Vec3.add position forward_direction) ⟨0, 1, 0⟩

/-- `Camera::new_fps`: stores the given position and forward direction,
derives yaw/pitch from the (raw) forward direction, derives the basis and
the cached matrices. -/
def Camera.new_fps (position forward_direction : Vec3) (aspect : ℝ) : Camera :=
  let projection := createPerspectiveMatrix aspect
  let view := createViewMatrix position forward_direction
  let yaw := atan2 forward_direction.z forward_direction.x
  let pitch := Real.arcsin forward_direction.y
  let right_direction := Vec3.normalize (Vec3.cross forward_direction unit_y)
  let up_direction := Vec3.cross forward_direction right_direction
  { position := position
    target := Vec3.add position forward_direction
    forward_direction := forward_direction
    up_direction := up_direction
    projection := projection
    view := view
    view_projection := Mat4.mul projection view
    view_mode := ViewMode.fps
    yaw := yaw
    pitch := pitch }

/-- `Camera::new_orbital`: the body is `unimplemented!()`, which panics on
every call; modelled as always returning the unimplemented-feature error. -/
def Camera.new_orbital (position target : Vec3) : Except CamError Camera :=
  Except.error CamError.unimplemented

/-- `Camera::update_fps`: integrates the pointer delta into yaw/pitch
(yaw gets `offset.x % 2*pi` added, pitch is clamped with epsilon `1e-5`),
rederives the forward/right/up basis from yaw/pitch, and applies WASD
movement with speed `0.1` per frame. -/
def Camera.update_fps (input : Input) (c : Camera) : Camera :=
  let speed : ℝ := 1 / 10
  let offset := input.device_offset
  let yaw1 := c.yaw + rustRem offset.x (2 * Real.pi)
  let epsilon : ℝ := 1 / 100000
  let pitch1 := rclamp (c.pitch - offset.y)
      (-(Real.pi / 2) + epsilon) (Real.pi / 2 - epsilon)
  let fwd := Vec3.normalize
      ⟨Real.cos yaw1 * Real.cos pitch1, Real.sin pitch1, Real.sin yaw1 * Real.cos pitch1⟩
  let right := Vec3.normalize (Vec3.cross fwd unit_y)
  let up := Vec3.cross fwd right
  let p1 := if input.key_down KeyCode.keyW
      then Vec3.add c.position (Vec3.smul speed fwd) else c.position
  let p2 := if input.key_down KeyCode.keyS
      then Vec3.sub p1 (Vec3.smul speed fwd) else p1
  let p3 := if input.key_down KeyCode.keyA
      then Vec3.sub p2 (Vec3.smul speed right) else p2
  let p4 := if input.key_down KeyCode.keyD
      then Vec3.add p3 (Vec3.smul speed right) else p3
  { c with
    yaw := yaw1
    pitch := pitch1
    forward_direction := fwd
    up_direction := up
    position := p4 }

/-- The successful (FPS) path of `Camera::update`: run `update_fps`, then
recompute `view` and `view_projection` from the new position and forward. -/
def Camera.step (input : Input) (c : Camera) : Camera :=
  let c1 := Camera.update_fps input c
  let v := createViewMatrix c1.position c1.forward_direction
  { c1 with view := v, view_projection := Mat4.mul c1.projection v }

/-- `Camera::update`: dispatch on the mode.  Orbit hits `unimplemented!()`
(a panic, so the matrix recomputation after the match never runs); FPS runs
`update_fps` and then recomputes the view and view-projection matrices. -/
def Camera.update (input : Input) (c : Camera) : Except CamError Camera :=
  match c.view_mode with
  | ViewMode.orbit => Except.error CamError.unimplemented
  | ViewMode.fps => Except.ok (Camera.step input c)

/-- `Camera::set_aspect_ratio`: overwrites `projection` with a fresh
perspective matrix for the given aspect; touches nothing else. -/
def Camera.set_aspect (aspect : ℝ) (c : Camera) : Camera :=
  { c with projection := createPerspectiveMatrix aspect }

/-- Iterated per-frame FPS updates (the FPS path of `Camera::update`
applied to each input of the list in order). -/
def Camera.updateSteps (inputs : List Input) (c : Camera) : Camera :=
  inputs.foldl (fun acc i => Camera.step i acc) c

/-- One `RedrawRequested` frame of `App::run` (`src/app.rs`), as it affects
the camera: an Escape press only calls `event_loop_window_target.exit()`,
which sets an exit flag without leaving the closure, so it does not alter
this frame; `camera.update` runs unconditionally, and then `App::render`
returns early — skipping only the scene draw — when the window width or
height is zero.  The boolean records whether the scene draw was reached. -/
def appFrame (w h : ℕ) (input : Input) (c : Camera) : Except CamError (Camera × Bool) :=
  (Camera.update input c).map (fun c1 => (c1, !(w == 0 || h == 0)))

/-- The process-wide counter cell `CURRENT: OnceCell<u128>` of
`src/uuid.rs`, modelled as explicit optional state (`none` =
uninitialized). -/
def getOrInit (s : Option ℕ) : Option ℕ × ℕ :=
  match s with
  | none => (some 0, 0)
  | some v => (some v, v)

/-- An identifier, modelling `struct UUID(u128)`. -/
structure UUID where
  val : ℕ
deriving DecidableEq

/-- `UUID::new`: `Self { 0: CURRENT.get_or_init(|| 0_u128) + 1 }` — reads
the cell (initializing it to 0 on first use) and returns that value plus
one, wrapped to `u128`; the cell itself is never advanced. -/
def UUID.new (s : Option ℕ) : UUID × Option ℕ :=
  let r := getOrInit s
  (⟨(r.2 + 1) % 2 ^ 128⟩, r.1)

/-! ## Shared concrete cameras and inputs -/

/-- A concrete FPS camera at the origin looking along the x-axis. -/
def fpsCam : Camera := Camera.new_fps ⟨0, 0, 0⟩ ⟨1, 0, 0⟩ 1

/-- A neutral input: no pointer motion, no keys held or pressed. -/
def inpNeutral : Input := ⟨⟨0, 0⟩, fun _ => false, fun _ => false⟩

/-- An input with only the move-forward key (W) held. -/
def inpW : Input :=
  ⟨⟨0, 0⟩, fun k => match k with | KeyCode.keyW => true | _ => false, fun _ => false⟩

/-- A pointer input whose vertical delta drives pitch far past the clamp. -/
def inpPitch : Input := ⟨⟨0, -2⟩, fun _ => false, fun _ => false⟩

/-- A concrete camera stuck in Orbit mode. -/
def orbitCam : Camera :=
  { position := ⟨0, 0, 0⟩
    forward_direction := ⟨1, 0, 0⟩
    up_direction := ⟨0, 1, 0⟩
    target := ⟨1, 0, 0⟩
    projection := createPerspectiveMatrix 1
    view := createViewMatrix ⟨0, 0, 0⟩ ⟨1, 0, 0⟩
    view_projection := Mat4.mul (createPerspectiveMatrix 1) (createViewMatrix ⟨0, 0, 0⟩ ⟨1, 0, 0⟩)
    view_mode := ViewMode.orbit
    yaw := 0
    pitch := 0 }

/-! ## Basic facts about the clamp bounds and small helpers -/

/-- The clamp epsilon is below `pi/2`, so the clamp interval is nonempty. -/
lemma clamp_lo_le_hi : -(Real.pi / 2) + 1 / 100000 ≤ Real.pi / 2 - 1 / 100000 := by
  nlinarith [Real.pi_gt_three]

lemma clamp_lo_neg : -(Real.pi / 2) + 1 / 100000 < 0 := by
  nlinarith [Real.pi_gt_three]

lemma clamp_hi_pos : (0 : ℝ) < Real.pi / 2 - 1 / 100000 := by
  nlinarith [Real.pi_gt_three]

lemma rclamp_le (x lo hi : ℝ) (h : lo ≤ hi) : rclamp x lo hi ≤ hi := by
  unfold rclamp
  split
  · exact h
  · split
    · exact le_refl hi
    · linarith [not_lt.mp (by assumption : ¬ hi < x)]

lemma le_rclamp (x lo hi : ℝ) (h : lo ≤ hi) : lo ≤ rclamp x lo hi := by
  unfold rclamp
  split
  · exact le_refl lo
  · split
    · exact h
    · linarith [not_lt.mp (by assumption : ¬ x < lo)]

lemma rclamp_eq_self (x lo hi : ℝ) (h1 : lo ≤ x) (h2 : x ≤ hi) : rclamp x lo hi = x := by
  unfold rclamp
  rw [if_neg (not_lt.mpr h1), if_neg (not_lt.mpr h2)]

lemma rustTrunc_zero : rustTrunc 0 = 0 := by
  unfold rustTrunc
  norm_num

lemma rustRem_zero_left (b : ℝ) : rustRem 0 b = 0 := by
  unfold rustRem
  rw [zero_div, rustTrunc_zero]
  ring

/-! ## Projection lemmas for the camera operations -/

lemma update_fps_pitch (i : Input) (c : Camera) :
    (Camera.update_fps i c).pitch =
      rclamp (c.pitch - i.device_offset.y)
        (-(Real.pi / 2) + 1 / 100000) (Real.pi / 2 - 1 / 100000) := rfl

lemma update_fps_yaw (i : Input) (c : Camera) :
    (Camera.update_fps i c).yaw = c.yaw + rustRem i.device_offset.x (2 * Real.pi) := rfl

lemma update_fps_target (i : Input) (c : Camera) :
    (Camera.update_fps i c).target = c.target := rfl

lemma update_fps_view_mode (i : Input) (c : Camera) :
    (Camera.update_fps i c).view_mode = c.view_mode := rfl

lemma step_pitch (i : Input) (c : Camera) :
    (Camera.step i c).pitch = (Camera.update_fps i c).pitch := rfl

lemma step_yaw (i : Input) (c : Camera) :
    (Camera.step i c).yaw = (Camera.update_fps i c).yaw := rfl

lemma step_position (i : Input) (c : Camera) :
    (Camera.step i c).position = (Camera.update_fps i c).position := rfl

lemma step_target (i : Input) (c : Camera) :
    (Camera.step i c).target = c.target := rfl

lemma step_view_mode (i : Input) (c : Camera) :
    (Camera.step i c).view_mode = c.view_mode := rfl

/-- In FPS mode, `Camera::update` succeeds and produces exactly `step`. -/
lemma update_fps_mode (i : Input) (c : Camera) (h : c.view_mode = ViewMode.fps) :
    Camera.update i c = Except.ok (Camera.step i c) := by
  unfold Camera.update
  rw [h]

/-- An `update` that succeeded did so in FPS mode and produced `step`. -/
lemma update_ok_elim (i : Input) (c c1 : Camera)
    (h : Camera.update i c = Except.ok c1) : c1 = Camera.step i c := by
  unfold Camera.update at h
  cases hm : c.view_mode with
  | orbit => rw [hm] at h; cases h
  | fps => rw [hm] at h; cases h; rfl

/-! ## C3: Orbit mode always signals the unimplemented-feature error -/

/-- C3: constructing a camera with `new_orbital`, or calling `update` on a
camera whose mode is Orbit, always signals the unimplemented-feature error;
it never succeeds and never reaches the matrix recomputation, so no stale
matrices are returned as a success. -/
theorem C3_orbit_always_rejected (p t : Vec3) (input : Input) (c : Camera)
    (h : c.view_mode = ViewMode.orbit) :
    Camera.new_orbital p t = Except.error CamError.unimplemented ∧
    Camera.update input c = Except.error CamError.unimplemented := by
  refine ⟨rfl, ?_⟩
  unfold Camera.update
  rw [h]

/-- Witness for C3 at a concrete orbit-mode camera and input. -/
theorem C3_orbit_always_rejected_witness :
    orbitCam.view_mode = ViewMode.orbit ∧
    (Camera.new_orbital ⟨0, 0, 0⟩ ⟨1, 0, 0⟩ = Except.error CamError.unimplemented ∧
     Camera.update inpNeutral orbitCam = Except.error CamError.unimplemented) :=
  ⟨rfl, C3_orbit_always_rejected ⟨0, 0, 0⟩ ⟨1, 0, 0⟩ inpNeutral orbitCam rfl⟩

/-! ## C9: the UUID generator is not monotonically increasing -/

/-- C9: the counter cell is never advanced past its lazily-initialized 0,
so two successive `UUID::new` calls both return the identifier 1 — the
later call is not strictly greater than the earlier one. -/
theorem C9_uuid_not_increasing :
    (UUID.new none).1 = ⟨1⟩ ∧
    (UUID.new ((UUID.new none).2)).1 = ⟨1⟩ ∧
    ¬ ((UUID.new none).1.val < (UUID.new ((UUID.new none).2)).1.val) := by
  refine ⟨?_, ?_, ?_⟩ <;> simp [UUID.new, getOrInit, Nat.mod_eq_of_lt]

/-! ## C10: view_projection is stale after set_aspect_ratio until update -/

/-- C10: `set_aspect_ratio` alone leaves the cached `view_projection`
unchanged (still the old projection times the old view, whenever that
invariant held before the call); only the next successful `update`
recomputes `view_projection`, and it then uses the new projection. -/
theorem C10_vp_stale_until_update (c : Camera) (r : ℝ) (input : Input) (c1 : Camera)
    (hinv : c.view_projection = Mat4.mul c.projection c.view)
    (hupd : Camera.update input (Camera.set_aspect r c) = Except.ok c1) :
    (Camera.set_aspect r c).view_projection = Mat4.mul c.projection c.view ∧
    c1.view_projection = Mat4.mul (createPerspectiveMatrix r) c1.view := by
  have h1 : (Camera.set_aspect r c).view_projection = c.view_projection := rfl
  refine ⟨h1.trans hinv, ?_⟩
  have hc1 := update_ok_elim input (Camera.set_aspect r c) c1 hupd
  subst hc1
  rfl

/-- Witness for C10 at a concrete FPS camera, aspect 2, neutral input. -/
theorem C10_vp_stale_until_update_witness :
    fpsCam.view_projection = Mat4.mul fpsCam.projection fpsCam.view ∧
    Camera.update inpNeutral (Camera.set_aspect 2 fpsCam) =
      Except.ok (Camera.step inpNeutral (Camera.set_aspect 2 fpsCam)) ∧
    ((Camera.set_aspect 2 fpsCam).view_projection = Mat4.mul fpsCam.projection fpsCam.view ∧
     (Camera.step inpNeutral (Camera.set_aspect 2 fpsCam)).view_projection =
       Mat4.mul (createPerspectiveMatrix 2)
         (Camera.step inpNeutral (Camera.set_aspect 2 fpsCam)).view) :=
  ⟨rfl, rfl, C10_vp_stale_until_update fpsCam 2 inpNeutral _ rfl rfl⟩

lemma norm_unit_x : Vec3.norm ⟨1, 0, 0⟩ = 1 := by
  unfold Vec3.norm
  norm_num

lemma normalize_unit_x : Vec3.normalize ⟨1, 0, 0⟩ = ⟨1, 0, 0⟩ := by
  unfold Vec3.normalize
  rw [norm_unit_x]
  unfold Vec3.smul
  norm_num

lemma norm_unit_z : Vec3.norm ⟨0, 0, 1⟩ = 1 := by
  unfold Vec3.norm
  norm_num

lemma normalize_unit_z : Vec3.normalize ⟨0, 0, 1⟩ = ⟨0, 0, 1⟩ := by
  unfold Vec3.normalize
  rw [norm_unit_z]
  unfold Vec3.smul
  norm_num

lemma atan2_zero_one : atan2 0 1 = 0 := by
  unfold atan2
  norm_num

lemma new_fps_x_yaw (p : Vec3) (a : ℝ) : (Camera.new_fps p ⟨1, 0, 0⟩ a).yaw = 0 := by
  simp [Camera.new_fps, atan2_zero_one]

lemma new_fps_x_pitch (p : Vec3) (a : ℝ) : (Camera.new_fps p ⟨1, 0, 0⟩ a).pitch = 0 := by
  simp [Camera.new_fps, Real.arcsin_zero]

lemma update_fps_inpW_eval (c : Camera) (hy : c.yaw = 0) (hp : c.pitch = 0) :
    Camera.update_fps inpW c =
      { c with
        yaw := 0
        pitch := 0
        forward_direction := ⟨1, 0, 0⟩
        up_direction := ⟨0, -1, 0⟩
        position := ⟨c.position.x + 1 / 10, c.position.y, c.position.z⟩ } := by
  unfold Camera.update_fps
  simp only [inpW]
  rw [hy, hp]
  norm_num [rustRem_zero_left]
  rw [rclamp_eq_self 0 _ _ clamp_lo_neg.le clamp_hi_pos.le]
  norm_num [Real.cos_zero, Real.sin_zero, normalize_unit_x]
  norm_num [Vec3.add, Vec3.smul, Vec3.cross, unit_y, normalize_unit_z]

lemma rclamp_hi_of_gt (x lo hi : ℝ) (h1 : ¬ x < lo) (h2 : hi < x) : rclamp x lo hi = hi := by
  unfold rclamp
  rw [if_neg h1, if_pos h2]

lemma fpsCam_yaw : fpsCam.yaw = 0 := new_fps_x_yaw ⟨0, 0, 0⟩ 1

lemma fpsCam_pitch : fpsCam.pitch = 0 := new_fps_x_pitch ⟨0, 0, 0⟩ 1

lemma fpsCam_position : fpsCam.position = ⟨0, 0, 0⟩ := rfl

lemma update_fps_position_no_keys (i : Input) (c : Camera)
    (hheld : ∀ k, i.key_down k = false) :
    (Camera.update_fps i c).position = c.position := by
  unfold Camera.update_fps
  simp [hheld]

lemma step_inpW_fpsCam_position : (Camera.step inpW fpsCam).position = ⟨1 / 10, 0, 0⟩ := by
  rw [step_position, update_fps_inpW_eval fpsCam fpsCam_yaw fpsCam_pitch]
  show (⟨fpsCam.position.x + 1 / 10, fpsCam.position.y, fpsCam.position.z⟩ : Vec3) = _
  rw [fpsCam_position]
  norm_num

lemma step_inpW_fpsCam_forward :
    (Camera.step inpW fpsCam).forward_direction = ⟨1, 0, 0⟩ := by
  show (Camera.update_fps inpW fpsCam).forward_direction = _
  rw [update_fps_inpW_eval fpsCam fpsCam_yaw fpsCam_pitch]

/-- C1 counterexample: one update with pointer delta `(0, -2)` drives the
pitch to exactly `pi/2 - 1e-5`, the upper clamp bound — so the pitch is
not *strictly* inside the open interval, contradicting "never equal to
either bound". -/
theorem C1_counterexample :
    (Camera.update inpPitch fpsCam).map Camera.pitch =
      Except.ok (Real.pi / 2 - 1 / 100000) := by
  rw [update_fps_mode inpPitch fpsCam rfl]
  show Except.ok ((Camera.step inpPitch fpsCam).pitch) = _
  rw [step_pitch, update_fps_pitch, fpsCam_pitch]
  have h0 : (0 : ℝ) - inpPitch.device_offset.y = 2 := by
    show (0 : ℝ) - (-2) = 2
    norm_num
  rw [h0]
  congr 1
  apply rclamp_hi_of_gt
  · push_neg
    nlinarith [Real.pi_gt_three]
  · nlinarith [Real.pi_lt_d2]

lemma step_pitch_in_range (i : Input) (c : Camera) :
    -(Real.pi / 2) + 1 / 100000 ≤ (Camera.step i c).pitch ∧
    (Camera.step i c).pitch ≤ Real.pi / 2 - 1 / 100000 := by
  rw [step_pitch, update_fps_pitch]
  exact ⟨le_rclamp _ _ _ clamp_lo_le_hi, rclamp_le _ _ _ clamp_lo_le_hi⟩

lemma updateSteps_pitch_in_range (inputs : List Input) (c : Camera)
    (hc : -(Real.pi / 2) + 1 / 100000 ≤ c.pitch ∧ c.pitch ≤ Real.pi / 2 - 1 / 100000) :
    -(Real.pi / 2) + 1 / 100000 ≤ (Camera.updateSteps inputs c).pitch ∧
    (Camera.updateSteps inputs c).pitch ≤ Real.pi / 2 - 1 / 100000 := by
  induction inputs generalizing c with
  | nil => exact hc
  | cons i rest ih =>
    have : Camera.updateSteps (i :: rest) c = Camera.updateSteps rest (Camera.step i c) := rfl
    rw [this]
    exact ih (Camera.step i c) (step_pitch_in_range i c)

/-- C1 (amended): after at least one FPS update, the pitch lies in the
*closed* interval `[-pi/2 + 1e-5, pi/2 - 1e-5]` (the clamp can make it
equal to either bound), and hence strictly inside `(-pi/2, pi/2)`. -/
theorem C1_pitch_clamped (c : Camera) (inputs : List Input) (h : inputs ≠ []) :
    -(Real.pi / 2) + 1 / 100000 ≤ (Camera.updateSteps inputs c).pitch ∧
    (Camera.updateSteps inputs c).pitch ≤ Real.pi / 2 - 1 / 100000 := by
  cases inputs with
  | nil => exact absurd rfl h
  | cons i rest =>
    have : Camera.updateSteps (i :: rest) c = Camera.updateSteps rest (Camera.step i c) := rfl
    rw [this]
    exact updateSteps_pitch_in_range rest (Camera.step i c) (step_pitch_in_range i c)

/-- Witness for C1 (amended) on a singleton input list at a concrete camera. -/
theorem C1_pitch_clamped_witness :
    ([inpNeutral] : List Input) ≠ [] ∧
    (-(Real.pi / 2) + 1 / 100000 ≤ (Camera.updateSteps [inpNeutral] fpsCam).pitch ∧
     (Camera.updateSteps [inpNeutral] fpsCam).pitch ≤ Real.pi / 2 - 1 / 100000) :=
  ⟨by simp, C1_pitch_clamped fpsCam [inpNeutral] (by simp)⟩

/-- C2 counterexample: in a frame with window width 0, holding W still
moves the camera from x = 0 to x = 1/10 — the update cycle is not skipped,
only the scene draw is (the boolean component is `false`). -/
theorem C2_counterexample :
    fpsCam.position.x = 0 ∧
    (appFrame 0 100 inpW fpsCam).map (fun pr => (pr.1.position.x, pr.2)) =
      Except.ok (1 / 10, false) := by
  constructor
  · rfl
  · unfold appFrame
    rw [update_fps_mode inpW fpsCam rfl]
    show Except.ok ((Camera.step inpW fpsCam).position.x, _) = _
    rw [step_inpW_fpsCam_position]
    rfl

/-- C2 (amended): a zero-size frame skips only the scene draw; the camera
update still runs exactly as in any frame, so position, yaw and pitch are
unchanged only when the input is neutral (zero pointer delta, no movement
keys) and the pitch is already inside the clamp interval. -/
theorem C2_zero_size_skips_render_only (w h : ℕ) (i : Input) (c c1 : Camera)
    (hw : w = 0 ∨ h = 0)
    (hupd : Camera.update i c = Except.ok c1)
    (hoffx : i.device_offset.x = 0) (hoffy : i.device_offset.y = 0)
    (hheld : ∀ k, i.key_down k = false)
    (hlo : -(Real.pi / 2) + 1 / 100000 ≤ c.pitch)
    (hhi : c.pitch ≤ Real.pi / 2 - 1 / 100000) :
    appFrame w h i c = Except.ok (c1, false) ∧
    c1.position = c.position ∧ c1.yaw = c.yaw ∧ c1.pitch = c.pitch := by
  have hc1 : c1 = Camera.step i c := update_ok_elim i c c1 hupd
  refine ⟨?_, ?_, ?_, ?_⟩
  · unfold appFrame
    rw [hupd]
    rcases hw with hw | hw <;> subst hw <;> simp [Except.map]
  · rw [hc1, step_position, update_fps_position_no_keys i c hheld]
  · rw [hc1, step_yaw, update_fps_yaw, hoffx, rustRem_zero_left, add_zero]
  · rw [hc1, step_pitch, update_fps_pitch, hoffy, sub_zero,
      rclamp_eq_self c.pitch _ _ hlo hhi]

/-- Witness for C2 (amended): width 0, neutral input, concrete camera. -/
theorem C2_zero_size_skips_render_only_witness :
    ((0 : ℕ) = 0 ∨ (1 : ℕ) = 0) ∧
    Camera.update inpNeutral fpsCam = Except.ok (Camera.step inpNeutral fpsCam) ∧
    inpNeutral.device_offset.x = 0 ∧ inpNeutral.device_offset.y = 0 ∧
    (∀ k, inpNeutral.key_down k = false) ∧
    -(Real.pi / 2) + 1 / 100000 ≤ fpsCam.pitch ∧
    fpsCam.pitch ≤ Real.pi / 2 - 1 / 100000 ∧
    (appFrame 0 1 inpNeutral fpsCam = Except.ok (Camera.step inpNeutral fpsCam, false) ∧
     (Camera.step inpNeutral fpsCam).position = fpsCam.position ∧
     (Camera.step inpNeutral fpsCam).yaw = fpsCam.yaw ∧
     (Camera.step inpNeutral fpsCam).pitch = fpsCam.pitch) :=
  ⟨Or.inl rfl, rfl, rfl, rfl, fun _ => rfl,
   by rw [fpsCam_pitch]; exact clamp_lo_neg.le,
   by rw [fpsCam_pitch]; exact clamp_hi_pos.le,
   C2_zero_size_skips_render_only 0 1 inpNeutral fpsCam (Camera.step inpNeutral fpsCam)
     (Or.inl rfl) rfl rfl rfl (fun _ => rfl)
     (by rw [fpsCam_pitch]; exact clamp_lo_neg.le)
     (by rw [fpsCam_pitch]; exact clamp_hi_pos.le)⟩

/-- C5 counterexample: after one update with W held from the start camera,
`target` is still `(1,0,0)` but `position + forward` is `(1.1, 0, 0)` —
the claimed invariant `target = position + forward` fails after `update`. -/
theorem C5_counterexample :
    (Camera.update inpW fpsCam).map
        (fun c => (c.target, Vec3.add c.position c.forward_direction)) =
      Except.ok ((⟨1, 0, 0⟩ : Vec3), (⟨11 / 10, 0, 0⟩ : Vec3)) ∧
    (⟨1, 0, 0⟩ : Vec3) ≠ (⟨11 / 10, 0, 0⟩ : Vec3) := by
  constructor
  · rw [update_fps_mode inpW fpsCam rfl]
    show Except.ok ((Camera.step inpW fpsCam).target,
      Vec3.add (Camera.step inpW fpsCam).position
        (Camera.step inpW fpsCam).forward_direction) = _
    rw [step_target, step_inpW_fpsCam_position, step_inpW_fpsCam_forward]
    have ht : fpsCam.target = (⟨1, 0, 0⟩ : Vec3) := by
      show Vec3.add ⟨0, 0, 0⟩ ⟨1, 0, 0⟩ = _
      unfold Vec3.add
      norm_num
    rw [ht]
    unfold Vec3.add
    norm_num
  · intro h
    have := congrArg Vec3.x h
    norm_num at this

/-- C5 (amended): `target = position + forward` holds at construction
(`new_fps`), but `update` never writes `target`: after an update the
target keeps its previous value (and so in general no longer equals
`position + forward`). -/
theorem C5_target_only_at_construction (p f : Vec3) (a : ℝ) (i : Input) (c c1 : Camera)
    (hupd : Camera.update i c = Except.ok c1) :
    (Camera.new_fps p f a).target = Vec3.add p f ∧ c1.target = c.target := by
  refine ⟨rfl, ?_⟩
  rw [update_ok_elim i c c1 hupd, step_target]

/-- Witness for C5 (amended) at a concrete camera and input. -/
theorem C5_target_only_at_construction_witness :
    Camera.update inpNeutral fpsCam = Except.ok (Camera.step inpNeutral fpsCam) ∧
    ((Camera.new_fps ⟨0, 0, 0⟩ ⟨1, 0, 0⟩ 1).target = Vec3.add ⟨0, 0, 0⟩ ⟨1, 0, 0⟩ ∧
     (Camera.step inpNeutral fpsCam).target = fpsCam.target) :=
  ⟨rfl, C5_target_only_at_construction ⟨0, 0, 0⟩ ⟨1, 0, 0⟩ 1 inpNeutral fpsCam
    (Camera.step inpNeutral fpsCam) rfl⟩

lemma mul_m23 (a b : Mat4) :
    (Mat4.mul a b).m23 = a.m20 * b.m03 + a.m21 * b.m13 + a.m22 * b.m23 + a.m23 * b.m33 := rfl

lemma persp_m20 (a : ℝ) : (createPerspectiveMatrix a).m20 = 0 := rfl

lemma persp_m21 (a : ℝ) : (createPerspectiveMatrix a).m21 = 0 := rfl

lemma persp_m22 (a : ℝ) :
    (createPerspectiveMatrix a).m22 = (100 + 1 / 100) / (1 / 100 - 100) := rfl

lemma lookAt_m33 (eye center up : Vec3) : (lookAtRh eye center up).m33 = 1 := rfl

lemma lookAt_m23 (eye center up : Vec3) :
    (lookAtRh eye center up).m23 =
      Vec3.dot eye (Vec3.normalize (Vec3.sub center eye)) := rfl

lemma view_origin_m23 : (createViewMatrix ⟨0, 0, 0⟩ ⟨1, 0, 0⟩).m23 = 0 := by
  unfold createViewMatrix
  rw [lookAt_m23]
  unfold Vec3.dot
  norm_num

lemma view_moved_m23 : (createViewMatrix ⟨1 / 10, 0, 0⟩ ⟨1, 0, 0⟩).m23 = 1 / 10 := by
  unfold createViewMatrix
  rw [lookAt_m23]
  have hsub : Vec3.sub (Vec3.add ⟨1 / 10, 0, 0⟩ ⟨1, 0, 0⟩) ⟨1 / 10, 0, 0⟩ = (⟨1, 0, 0⟩ : Vec3) := by
    unfold Vec3.add Vec3.sub
    norm_num
  rw [hsub, normalize_unit_x]
  unfold Vec3.dot
  norm_num

lemma step_inpW_newfps_position (a : ℝ) :
    (Camera.step inpW (Camera.new_fps ⟨0, 0, 0⟩ ⟨1, 0, 0⟩ a)).position = ⟨1 / 10, 0, 0⟩ := by
  rw [step_position,
    update_fps_inpW_eval _ (new_fps_x_yaw ⟨0, 0, 0⟩ a) (new_fps_x_pitch ⟨0, 0, 0⟩ a)]
  show (⟨(Camera.new_fps ⟨0, 0, 0⟩ ⟨1, 0, 0⟩ a).position.x + 1 / 10, _, _⟩ : Vec3) = _
  show (⟨(0 : ℝ) + 1 / 10, (0 : ℝ), (0 : ℝ)⟩ : Vec3) = _
  norm_num

lemma step_inpW_newfps_forward (a : ℝ) :
    (Camera.step inpW (Camera.new_fps ⟨0, 0, 0⟩ ⟨1, 0, 0⟩ a)).forward_direction = ⟨1, 0, 0⟩ := by
  show (Camera.update_fps inpW (Camera.new_fps ⟨0, 0, 0⟩ ⟨1, 0, 0⟩ a)).forward_direction = _
  rw [update_fps_inpW_eval _ (new_fps_x_yaw ⟨0, 0, 0⟩ a) (new_fps_x_pitch ⟨0, 0, 0⟩ a)]

lemma step_projection (i : Input) (c : Camera) :
    (Camera.step i c).projection = c.projection := rfl

lemma step_view (i : Input) (c : Camera) :
    (Camera.step i c).view =
      createViewMatrix (Camera.step i c).position (Camera.step i c).forward_direction := rfl

lemma step_vp (i : Input) (c : Camera) :
    (Camera.step i c).view_projection =
      Mat4.mul c.projection
        (createViewMatrix (Camera.step i c).position (Camera.step i c).forward_direction) := rfl

/-- C7: from position (0,0,0), forward (1,0,0), one FPS update with zero
pointer delta and W held moves the position to exactly (0.1, 0, 0), and the
recomputed `view_projection` differs from its pre-update value. -/
theorem C7_movement_scenario (a : ℝ) (c1 : Camera)
    (hupd : Camera.update inpW (Camera.new_fps ⟨0, 0, 0⟩ ⟨1, 0, 0⟩ a) = Except.ok c1) :
    c1.position = ⟨1 / 10, 0, 0⟩ ∧
    c1.view_projection ≠ (Camera.new_fps ⟨0, 0, 0⟩ ⟨1, 0, 0⟩ a).view_projection := by
  have hc1 := update_ok_elim _ _ _ hupd
  subst hc1
  refine ⟨step_inpW_newfps_position a, ?_⟩
  intro h
  have h23 := congrArg Mat4.m23 h
  rw [step_vp] at h23
  have hpre : (Camera.new_fps ⟨0, 0, 0⟩ ⟨1, 0, 0⟩ a).view_projection =
      Mat4.mul (createPerspectiveMatrix a) (createViewMatrix ⟨0, 0, 0⟩ ⟨1, 0, 0⟩) := rfl
  rw [hpre] at h23
  have hproj : (Camera.new_fps ⟨0, 0, 0⟩ ⟨1, 0, 0⟩ a).projection = createPerspectiveMatrix a := rfl
  rw [hproj, step_inpW_newfps_position a, step_inpW_newfps_forward a] at h23
  rw [mul_m23, mul_m23, persp_m20, persp_m21, persp_m22,
    view_moved_m23, view_origin_m23] at h23
  unfold createViewMatrix at h23
  rw [lookAt_m33, lookAt_m33] at h23
  norm_num at h23

/-- Witness for C7 at aspect ratio 1. -/
theorem C7_movement_scenario_witness :
    Camera.update inpW (Camera.new_fps ⟨0, 0, 0⟩ ⟨1, 0, 0⟩ 1) =
      Except.ok (Camera.step inpW (Camera.new_fps ⟨0, 0, 0⟩ ⟨1, 0, 0⟩ 1)) ∧
    ((Camera.step inpW (Camera.new_fps ⟨0, 0, 0⟩ ⟨1, 0, 0⟩ 1)).position = ⟨1 / 10, 0, 0⟩ ∧
     (Camera.step inpW (Camera.new_fps ⟨0, 0, 0⟩ ⟨1, 0, 0⟩ 1)).view_projection ≠
       (Camera.new_fps ⟨0, 0, 0⟩ ⟨1, 0, 0⟩ 1).view_projection) :=
  ⟨rfl, C7_movement_scenario 1 _ rfl⟩

lemma atan2_scale (k y x : ℝ) (hk : 0 < k) : atan2 (k * y) (k * x) = atan2 y x := by
  unfold atan2
  have hdiv : k * y / (k * x) = y / x := mul_div_mul_left y x (ne_of_gt hk)
  have c1 : (0 < k * x) ↔ (0 < x) := by
    constructor
    · intro h; nlinarith
    · intro h; positivity
  have c2 : (k * x < 0) ↔ (x < 0) := by
    constructor
    · intro h; nlinarith
    · intro h; nlinarith
  have c3 : (0 ≤ k * y) ↔ (0 ≤ y) := by
    constructor
    · intro h; nlinarith
    · intro h; positivity
  have c4 : (0 < k * y) ↔ (0 < y) := by
    constructor
    · intro h; nlinarith
    · intro h; positivity
  have c5 : (k * y < 0) ↔ (y < 0) := by
    constructor
    · intro h; nlinarith
    · intro h; nlinarith
  rw [hdiv]
  simp only [c1, c2, c3, c4, c5]

lemma norm_two_x : Vec3.norm ⟨2, 0, 0⟩ = 2 := by
  unfold Vec3.norm
  rw [show (2 : ℝ) ^ 2 + 0 ^ 2 + 0 ^ 2 = 2 ^ 2 by norm_num]
  exact Real.sqrt_sq (by norm_num)

/-- C4 counterexample: constructing with the non-unit forward `(2,0,0)`
stores it as-is — the stored forward direction has length 2, not 1, so
`new_fps` does not normalize internally. -/
theorem C4_counterexample :
    (Camera.new_fps ⟨0, 0, 0⟩ ⟨2, 0, 0⟩ 1).forward_direction = ⟨2, 0, 0⟩ ∧
    Vec3.norm (Camera.new_fps ⟨0, 0, 0⟩ ⟨2, 0, 0⟩ 1).forward_direction = 2 ∧
    (2 : ℝ) ≠ 1 := by
  refine ⟨rfl, ?_, by norm_num⟩
  show Vec3.norm ⟨2, 0, 0⟩ = 2
  exact norm_two_x

/-- C4 (amended): `new_fps` stores the forward direction exactly as given
(no internal normalization).  Yaw is `atan2(f.z, f.x)` of the raw vector —
which coincides with the yaw of the normalized vector, since `atan2` is
invariant under positive scaling — while pitch is `asin` of the *raw*
y-component, not of the normalized one. -/
theorem C4_new_fps_raw (p f : Vec3) (a : ℝ) (hn : 0 < Vec3.norm f) :
    (Camera.new_fps p f a).forward_direction = f ∧
    (Camera.new_fps p f a).yaw = atan2 f.z f.x ∧
    (Camera.new_fps p f a).yaw = atan2 (Vec3.normalize f).z (Vec3.normalize f).x ∧
    (Camera.new_fps p f a).pitch = Real.arcsin f.y := by
  refine ⟨rfl, rfl, ?_, rfl⟩
  show atan2 f.z f.x = atan2 (1 / Vec3.norm f * f.z) (1 / Vec3.norm f * f.x)
  rw [atan2_scale (1 / Vec3.norm f) f.z f.x (by positivity)]

/-- Witness for C4 (amended) at the non-unit forward `(2,0,0)`. -/
theorem C4_new_fps_raw_witness :
    0 < Vec3.norm ⟨2, 0, 0⟩ ∧
    ((Camera.new_fps ⟨0, 0, 0⟩ ⟨2, 0, 0⟩ 1).forward_direction = ⟨2, 0, 0⟩ ∧
     (Camera.new_fps ⟨0, 0, 0⟩ ⟨2, 0, 0⟩ 1).yaw = atan2 (⟨2, 0, 0⟩ : Vec3).z (⟨2, 0, 0⟩ : Vec3).x ∧
     (Camera.new_fps ⟨0, 0, 0⟩ ⟨2, 0, 0⟩ 1).yaw =
       atan2 (Vec3.normalize ⟨2, 0, 0⟩).z (Vec3.normalize ⟨2, 0, 0⟩).x ∧
     (Camera.new_fps ⟨0, 0, 0⟩ ⟨2, 0, 0⟩ 1).pitch = Real.arcsin (⟨2, 0, 0⟩ : Vec3).y) :=
  ⟨by rw [norm_two_x]; norm_num,
   C4_new_fps_raw ⟨0, 0, 0⟩ ⟨2, 0, 0⟩ 1 (by rw [norm_two_x]; norm_num)⟩

/-- C6 counterexample: calling `set_aspect_ratio` with the aspect the
projection was already built from leaves `projection` bit-identical — so
"calling `set_aspect_ratio` changes the projection matrix" fails for this
camera state and aspect. -/
theorem C6_counterexample :
    (Camera.set_aspect 1 fpsCam).projection = fpsCam.projection := rfl

/-- C6 (amended): `set_aspect_ratio` overwrites `projection` with the
perspective matrix of the given aspect — a genuine change whenever the new
aspect differs from the (positive) aspect the projection encodes, since
distinct positive aspects give distinct perspective matrices — and leaves
`view` bit-identical, as well as position, yaw and pitch. -/
theorem C6_set_aspect_isolated (c : Camera) (r r1 r2 : ℝ)
    (h1 : 0 < r1) (h2 : 0 < r2) (hne : r1 ≠ r2) :
    (Camera.set_aspect r c).projection = createPerspectiveMatrix r ∧
    (Camera.set_aspect r c).view = c.view ∧
    (Camera.set_aspect r c).position = c.position ∧
    (Camera.set_aspect r c).yaw = c.yaw ∧
    (Camera.set_aspect r c).pitch = c.pitch ∧
    createPerspectiveMatrix r1 ≠ createPerspectiveMatrix r2 := by
  refine ⟨rfl, rfl, rfl, rfl, rfl, ?_⟩
  intro h
  have htan : Real.tan (Real.pi / 2 / 2) = 1 := by
    rw [show Real.pi / 2 / 2 = Real.pi / 4 by ring, Real.tan_pi_div_four]
  have h00 := congrArg Mat4.m00 h
  have e1 : (createPerspectiveMatrix r1).m00 = 1 / r1 := by
    show 1 / Real.tan (Real.pi / 2 / 2) / r1 = 1 / r1
    rw [htan]
    norm_num
  have e2 : (createPerspectiveMatrix r2).m00 = 1 / r2 := by
    show 1 / Real.tan (Real.pi / 2 / 2) / r2 = 1 / r2
    rw [htan]
    norm_num
  rw [e1, e2] at h00
  have : r1 = r2 := by
    field_simp at h00
    linarith
  exact hne this

/-- Witness for C6 (amended) at concrete camera and aspects 2, 1, 2. -/
theorem C6_set_aspect_isolated_witness :
    (0 : ℝ) < 1 ∧ (0 : ℝ) < 2 ∧ (1 : ℝ) ≠ 2 ∧
    ((Camera.set_aspect 2 fpsCam).projection = createPerspectiveMatrix 2 ∧
     (Camera.set_aspect 2 fpsCam).view = fpsCam.view ∧
     (Camera.set_aspect 2 fpsCam).position = fpsCam.position ∧
     (Camera.set_aspect 2 fpsCam).yaw = fpsCam.yaw ∧
     (Camera.set_aspect 2 fpsCam).pitch = fpsCam.pitch ∧
     createPerspectiveMatrix 1 ≠ createPerspectiveMatrix 2) :=
  ⟨by norm_num, by norm_num, by norm_num,
   C6_set_aspect_isolated fpsCam 2 1 2 (by norm_num) (by norm_num) (by norm_num)⟩

lemma basis_fwd_norm (y p : ℝ) :
    Vec3.norm ⟨Real.cos y * Real.cos p, Real.sin p, Real.sin y * Real.cos p⟩ = 1 := by
  unfold Vec3.norm
  rw [show (Real.cos y * Real.cos p) ^ 2 + Real.sin p ^ 2 + (Real.sin y * Real.cos p) ^ 2 = 1 by
    linear_combination Real.cos p ^ 2 * Real.sin_sq_add_cos_sq y + Real.sin_sq_add_cos_sq p]
  exact Real.sqrt_one

lemma basis_fwd_eval (y p : ℝ) :
    Vec3.normalize ⟨Real.cos y * Real.cos p, Real.sin p, Real.sin y * Real.cos p⟩ =
      ⟨Real.cos y * Real.cos p, Real.sin p, Real.sin y * Real.cos p⟩ := by
  unfold Vec3.normalize
  rw [basis_fwd_norm]
  unfold Vec3.smul
  norm_num

lemma basis_cross_eval (y p : ℝ) :
    Vec3.cross ⟨Real.cos y * Real.cos p, Real.sin p, Real.sin y * Real.cos p⟩ unit_y =
      ⟨-(Real.sin y * Real.cos p), 0, Real.cos y * Real.cos p⟩ := by
  unfold Vec3.cross unit_y
  simp only [Vec3.mk.injEq]
  refine ⟨by ring, by ring, by ring⟩

lemma basis_cross_norm (y p : ℝ) (hcp : 0 < Real.cos p) :
    Vec3.norm ⟨-(Real.sin y * Real.cos p), 0, Real.cos y * Real.cos p⟩ = Real.cos p := by
  unfold Vec3.norm
  rw [show (-(Real.sin y * Real.cos p)) ^ 2 + (0 : ℝ) ^ 2 + (Real.cos y * Real.cos p) ^ 2 =
      Real.cos p ^ 2 by linear_combination Real.cos p ^ 2 * Real.sin_sq_add_cos_sq y]
  exact Real.sqrt_sq hcp.le

lemma basis_right_eval (y p : ℝ) (hcp : 0 < Real.cos p) :
    Vec3.normalize ⟨-(Real.sin y * Real.cos p), 0, Real.cos y * Real.cos p⟩ =
      ⟨-(Real.sin y), 0, Real.cos y⟩ := by
  unfold Vec3.normalize
  rw [basis_cross_norm y p hcp]
  unfold Vec3.smul
  simp only [Vec3.mk.injEq]
  refine ⟨?_, by ring, ?_⟩
  · field_simp
  · field_simp

lemma basis_up_eval (y p : ℝ) :
    Vec3.cross ⟨Real.cos y * Real.cos p, Real.sin p, Real.sin y * Real.cos p⟩
        ⟨-(Real.sin y), 0, Real.cos y⟩ =
      ⟨Real.sin p * Real.cos y, -Real.cos p, Real.sin p * Real.sin y⟩ := by
  unfold Vec3.cross
  simp only [Vec3.mk.injEq]
  refine ⟨by ring, by linear_combination (-(Real.cos p)) * Real.sin_sq_add_cos_sq y, by ring⟩

lemma basis_up_norm (y p : ℝ) :
    Vec3.norm ⟨Real.sin p * Real.cos y, -Real.cos p, Real.sin p * Real.sin y⟩ = 1 := by
  unfold Vec3.norm
  rw [show (Real.sin p * Real.cos y) ^ 2 + (-Real.cos p) ^ 2 + (Real.sin p * Real.sin y) ^ 2 = 1 by
    linear_combination Real.sin p ^ 2 * Real.sin_sq_add_cos_sq y + Real.sin_sq_add_cos_sq p]
  exact Real.sqrt_one

lemma basis_right_norm (y : ℝ) :
    Vec3.norm ⟨-(Real.sin y), 0, Real.cos y⟩ = 1 := by
  unfold Vec3.norm
  rw [show (-(Real.sin y)) ^ 2 + (0 : ℝ) ^ 2 + Real.cos y ^ 2 = 1 by
    linear_combination Real.sin_sq_add_cos_sq y]
  exact Real.sqrt_one

/-- C8: for every camera state and input, the forward, right and up
vectors recomputed by the FPS update are mutually orthogonal (all pairwise
dot products exactly zero in the real-number model) and each of unit
length; the clamped pitch keeps `cos pitch` positive, so the cross-product
normalization never degenerates. -/
theorem C8_basis_orthonormal (c : Camera) (i : Input) :
    Vec3.norm (Camera.step i c).forward_direction = 1 ∧
    Vec3.norm (Vec3.normalize (Vec3.cross (Camera.step i c).forward_direction unit_y)) = 1 ∧
    Vec3.norm (Camera.step i c).up_direction = 1 ∧
    Vec3.dot (Camera.step i c).forward_direction
      (Vec3.normalize (Vec3.cross (Camera.step i c).forward_direction unit_y)) = 0 ∧
    Vec3.dot (Camera.step i c).forward_direction (Camera.step i c).up_direction = 0 ∧
    Vec3.dot (Vec3.normalize (Vec3.cross (Camera.step i c).forward_direction unit_y))
      (Camera.step i c).up_direction = 0 := by
  set Y := c.yaw + rustRem i.device_offset.x (2 * Real.pi) with hYdef
  set P := rclamp (c.pitch - i.device_offset.y)
      (-(Real.pi / 2) + 1 / 100000) (Real.pi / 2 - 1 / 100000) with hPdef
  have hp1 : -(Real.pi / 2) < P := by
    have := le_rclamp (c.pitch - i.device_offset.y)
      (-(Real.pi / 2) + 1 / 100000) (Real.pi / 2 - 1 / 100000) clamp_lo_le_hi
    rw [← hPdef] at this
    linarith
  have hp2 : P < Real.pi / 2 := by
    have := rclamp_le (c.pitch - i.device_offset.y)
      (-(Real.pi / 2) + 1 / 100000) (Real.pi / 2 - 1 / 100000) clamp_lo_le_hi
    rw [← hPdef] at this
    linarith
  have hcp : 0 < Real.cos P := Real.cos_pos_of_mem_Ioo (Set.mem_Ioo.mpr ⟨hp1, hp2⟩)
  have hF0 : (Camera.step i c).forward_direction =
      Vec3.normalize ⟨Real.cos Y * Real.cos P, Real.sin P, Real.sin Y * Real.cos P⟩ := rfl
  have hF : (Camera.step i c).forward_direction =
      ⟨Real.cos Y * Real.cos P, Real.sin P, Real.sin Y * Real.cos P⟩ :=
    hF0.trans (basis_fwd_eval Y P)
  have hR : Vec3.normalize (Vec3.cross (Camera.step i c).forward_direction unit_y) =
      ⟨-(Real.sin Y), 0, Real.cos Y⟩ := by
    rw [hF, basis_cross_eval, basis_right_eval Y P hcp]
  have hU0 : (Camera.step i c).up_direction =
      Vec3.cross (Vec3.normalize ⟨Real.cos Y * Real.cos P, Real.sin P, Real.sin Y * Real.cos P⟩)
        (Vec3.normalize
          (Vec3.cross
            (Vec3.normalize ⟨Real.cos Y * Real.cos P, Real.sin P, Real.sin Y * Real.cos P⟩)
            unit_y)) := rfl
  have hU : (Camera.step i c).up_direction =
      ⟨Real.sin P * Real.cos Y, -Real.cos P, Real.sin P * Real.sin Y⟩ := by
    rw [hU0, basis_fwd_eval, basis_cross_eval, basis_right_eval Y P hcp, basis_up_eval]
  refine ⟨?_, ?_, ?_, ?_, ?_, ?_⟩
  · rw [hF]
    exact basis_fwd_norm Y P
  · rw [hR]
    exact basis_right_norm Y
  · rw [hU]
    exact basis_up_norm Y P
  · rw [hR, hF]
    unfold Vec3.dot
    ring
  · rw [hF, hU]
    unfold Vec3.dot
    linear_combination (Real.sin P * Real.cos P) * Real.sin_sq_add_cos_sq Y
  · rw [hR, hU]
    unfold Vec3.dot
    ring

end
